import Mathlib

/-!
Shallow embedding of the attendance web application (`app.py`): the two
persisted models (`Session`, `Attendance`), the database state, and the
route handlers that the specification describes — session creation, the
QR-code rotation gate, the student attendance submission, and the roster
reporting endpoints.  Time is modelled as `Int` seconds since an arbitrary
epoch; durations given in minutes are converted to seconds with a factor
of 60, mirroring `timedelta(minutes=...)`.  Randomly generated UUID codes
are modelled as explicit `String` arguments supplied by the caller.
-/

namespace AttendanceApp

/-- Embeds the `Session` model: `code` is the permanent code (unique
column), `current_code` the rotating one, times are `Int` seconds. -/
structure Session where
  id : Nat
  code : String
  current_code : String
  course_name : String
  created_at : Int
  expires_at : Int
  last_code_rotation : Int
deriving DecidableEq, Repr

/-- Embeds the `Attendance` model; `marked_at` is the insertion time. -/
structure Attendance where
  id : Nat
  session_id : Nat
  student_id : String
  student_name : String
  marked_at : Int
deriving DecidableEq, Repr

/-- The persisted store: the rows of both tables in insertion order, and
the next surrogate id handed out for an `Attendance` row. -/
structure DB where
  sessions : List Session
  attendances : List Attendance
  next_attendance_id : Nat
deriving DecidableEq, Repr

/-- The observable outcome of a request, following §7 of the design:
`notFound` is HTTP 404, `expired` is HTTP 410, `validationError` carries
the flashed message of the redirect, `alreadyRecorded` and `recorded` are
the two plain-text success bodies of `attend`. -/
inductive Outcome where
  | notFound
  | expired
  | validationError (msg : String)
  | alreadyRecorded
  | recorded
deriving DecidableEq, Repr

/-- Embeds Python's `str.strip()`: drop whitespace from both ends. -/
def strip (s : String) : String :=
  String.mk (((s.data.dropWhile (fun c => c.isWhitespace)).reverse.dropWhile
    (fun c => c.isWhitespace)).reverse)

/-- `Session.query.filter_by(code=code).first()` — first row whose
permanent `code` column matches. -/
def find_by_code (db : DB) (c : String) : Option Session :=
  db.sessions.find? (fun s => s.code == c)

/-- `Session.query.filter_by(current_code=code).first()` — first row whose
rotating `current_code` column matches. -/
def find_by_current_code (db : DB) (c : String) : Option Session :=
  db.sessions.find? (fun s => s.current_code == c)

/-- The lookup both roster endpoints perform: by permanent `code` first,
falling back to the rotating `current_code` (`view_attendance` /
`attendance_json`, lines 167–169 and 178–180 of `app.py`). -/
def get_session_by_any_code (db : DB) (c : String) : Option Session :=
  match find_by_code db c with
  | some s => some s
  | none => find_by_current_code db c

/-- Embeds the POST branch of `create_session`: the fresh UUID `code` is
an explicit argument, `now = datetime.utcnow()`,
`expires_at = now + timedelta(minutes=duration_minutes)`, and
`current_code` is initialised to `code`.  `last_code_rotation` takes its
column default `datetime.utcnow`. -/
def create_session (i : Nat) (course_name : String) (duration_minutes : Int)
    (code : String) (now : Int) : Session :=
  { id := i
    code := code
    current_code := code
    course_name := course_name
    created_at := now
    expires_at := now + 60 * duration_minutes
    last_code_rotation := now }

/-- The expiry test of `attend` (line 128): `datetime.utcnow() > session.expires_at`. -/
def is_expired (s : Session) (now : Int) : Bool :=
  s.expires_at < now

/-- Embeds the rotation gate of `session_qr` (lines 96–104): if at least
60 seconds have elapsed since `last_code_rotation`, install the fresh
UUID `fresh` as `current_code` and stamp `last_code_rotation`; otherwise
leave the session untouched.  Returns the updated session together with
the code embedded in the QR URL (`session.current_code` after the gate). -/
def maybe_rotate (s : Session) (now : Int) (fresh : String) : Session × String :=
  if 60 ≤ now - s.last_code_rotation then
    let s' := { s with current_code := fresh, last_code_rotation := now }
    (s', s'.current_code)
  else
    (s, s.current_code)

/-- `Attendance.query.filter_by(session_id=..., student_id=...).first()`
(lines 144–147). -/
def existing_record (db : DB) (sid : Nat) (stud : String) : Option Attendance :=
  db.attendances.find? (fun a => a.session_id == sid && a.student_id == stud)

/-- `db.session.add(record); db.session.commit()` for a new `Attendance`
row with `marked_at = now` (column default `datetime.utcnow`). -/
def insert_attendance (db : DB) (sid : Nat) (stud sname : String) (now : Int) : DB :=
  { db with
    attendances := db.attendances ++
      [{ id := db.next_attendance_id
         session_id := sid
         student_id := stud
         student_name := sname
         marked_at := now }]
    next_attendance_id := db.next_attendance_id + 1 }

/-- Number of `Attendance` rows stored for the pair `(sid, stud)`. -/
def count_pair (db : DB) (sid : Nat) (stud : String) : Nat :=
  (db.attendances.filter (fun a => a.session_id == sid && a.student_id == stud)).length

/-- Embeds the POST branch of the `attend` route (lines 119–156): look the
session up by `current_code` only, 410 if expired, strip and validate the
two form fields, reject duplicates of `(session_id, student_id)`, and
otherwise insert the row.  Returns the outcome and the resulting store. -/
def attend (db : DB) (code : String) (student_id student_name : String)
    (now : Int) : Outcome × DB :=
  match find_by_current_code db code with
  | none => (Outcome.notFound, db)
  | some s =>
    if is_expired s now then
      (Outcome.expired, db)
    else
      let sid := strip student_id
      let sname := strip student_name
      if sid = "" then
        (Outcome.validationError "Please enter your student ID.", db)
      else if sname = "" then
        (Outcome.validationError "Please enter your name.", db)
      else if (existing_record db s.id sid).isSome then
        (Outcome.alreadyRecorded, db)
      else
        (Outcome.recorded, insert_attendance db s.id sid sname now)

/-- The ordering used by the roster queries: ascending `marked_at`. -/
def rosterLE (a b : Attendance) : Prop :=
  a.marked_at ≤ b.marked_at

instance : DecidableRel rosterLE :=
  fun a b => inferInstanceAs (Decidable (a.marked_at ≤ b.marked_at))

instance : IsTotal Attendance rosterLE :=
  ⟨fun a b => Int.le_total a.marked_at b.marked_at⟩

instance : IsTrans Attendance rosterLE :=
  ⟨fun _ _ _ h1 h2 => le_trans h1 h2⟩

/-- `Attendance.query.filter_by(session_id=...).order_by(Attendance.marked_at).all()`
(lines 171 and 182): the session's rows sorted by `marked_at` ascending. -/
def list_attendance (db : DB) (sid : Nat) : List Attendance :=
  List.insertionSort rosterLE (db.attendances.filter (fun a => a.session_id == sid))

/-- Embeds `view_attendance`: resolve the session by either code, then
return it with its ordered roster (404 on no match). -/
def view_attendance (db : DB) (c : String) : Option (Session × List Attendance) :=
  (get_session_by_any_code db c).map (fun s => (s, list_attendance db s.id))

/-- Embeds `attendance_json`: same lookup and query, serialised as
`(session_code, [(student_id, student_name, marked_at)])`. -/
def attendance_json (db : DB) (c : String) :
    Option (String × List (String × String × Int)) :=
  (get_session_by_any_code db c).map (fun s =>
    (s.code, (list_attendance db s.id).map (fun r =>
      (r.student_id, r.student_name, r.marked_at))))

/-- A concrete session used by the witnesses: already rotated once, so its
rotating code "Q" differs from its permanent code "P". -/
def sampleSession : Session :=
  { id := 1
    code := "P"
    current_code := "Q"
    course_name := "CS101"
    created_at := 0
    expires_at := 600
    last_code_rotation := 0 }

/-- A concrete store holding just `sampleSession` and no attendance. -/
def sampleDB : DB :=
  { sessions := [sampleSession]
    attendances := []
    next_attendance_id := 1 }

/-- Attendance rows inserted out of `marked_at` order, with a tie at 30
and one row belonging to a different session. -/
def sampleRows : List Attendance :=
  [{ id := 1, session_id := 1, student_id := "s1", student_name := "Alice", marked_at := 50 },
   { id := 2, session_id := 1, student_id := "s2", student_name := "Bob", marked_at := 30 },
   { id := 3, session_id := 2, student_id := "x", student_name := "Y", marked_at := 10 },
   { id := 4, session_id := 1, student_id := "s3", student_name := "Eve", marked_at := 30 }]

/-- A concrete store with out-of-order attendance rows for the roster
witness. -/
def sampleDB2 : DB :=
  { sessions := [sampleSession]
    attendances := sampleRows
    next_attendance_id := 5 }

/-- If `x` is in `l`, satisfies `p`, and is the only element of `l`
satisfying `p`, then `find?` returns it: the `.first()` of a filtered
query on a unique column. -/
theorem find?_eq_some_unique {α : Type} (p : α → Bool) (l : List α) (x : α)
    (hx : x ∈ l) (hpx : p x = true) (huniq : ∀ y ∈ l, p y = true → y = x) :
    l.find? p = some x := by
  induction l with
  | nil => cases hx
  | cons a t ih =>
    by_cases hpa : p a = true
    · rw [List.find?_cons_of_pos _ hpa, huniq a (List.mem_cons_self a t) hpa]
    · have hxt : x ∈ t := by
        rcases List.mem_cons.mp hx with h | h
        · exact absurd (h ▸ hpx) hpa
        · exact h
      rw [List.find?_cons_of_neg _ hpa]
      exact ih hxt (fun y hy hpy => huniq y (List.mem_cons_of_mem a hy) hpy)

/-- `attend` leaves the session table untouched, so a lookup after an
insertion sees the same sessions. -/
theorem find_by_current_code_insert (db : DB) (sid : Nat) (stud sname : String)
    (now : Int) (c : String) :
    find_by_current_code (insert_attendance db sid stud sname now) c =
      find_by_current_code db c := rfl

/-- C4: for every course name and duration D minutes, `create_session`
stamps `created_at` with the creation time and sets
`expires_at - created_at` to exactly D minutes (D * 60 seconds). -/
theorem create_session_duration (i : Nat) (cn : String) (d : Int)
    (code : String) (now : Int) :
    (create_session i cn d code now).created_at = now ∧
    (create_session i cn d code now).expires_at -
      (create_session i cn d code now).created_at = 60 * d := by
  constructor
  · rfl
  · simp [create_session]

/-- C9: immediately after creation, before any rotation check, the
session's `current_code` equals its permanent `code`. -/
theorem create_session_current_code_eq (i : Nat) (cn : String) (d : Int)
    (code : String) (now : Int) :
    (create_session i cn d code now).current_code =
      (create_session i cn d code now).code := rfl

/-- C8: `create_session` accepts any integral duration; for a zero or
negative duration the created session's `expires_at` is not after the
creation time, so the expiry check `now > expires_at` already holds at
every instant strictly after creation. -/
theorem create_session_nonpositive_expired (i : Nat) (cn : String) (d : Int)
    (code : String) (now t : Int) (hd : d ≤ 0) (ht : now < t) :
    (create_session i cn d code now).expires_at ≤ now ∧
    is_expired (create_session i cn d code now) t = true := by
  have h60 : 60 * d ≤ 0 := by omega
  constructor
  · simp only [create_session]
    omega
  · simp only [is_expired, create_session, decide_eq_true_eq]
    omega

/-- Witness for C8 at duration −5 minutes, created at time 100, probed at 101. -/
theorem create_session_nonpositive_expired_witness :
    (create_session 1 "CS101" (-5) "C" 100).expires_at ≤ 100 ∧
    is_expired (create_session 1 "CS101" (-5) "C" 100) 101 = true :=
  create_session_nonpositive_expired 1 "CS101" (-5) "C" 100 101
    (by norm_num) (by norm_num)

/-- C2: the rotation check is a pure 60-second time gate: under 60 seconds
since `last_code_rotation` nothing changes and the stored code is
returned; at or beyond 60 seconds the fresh code (distinct from the old
one) is installed and `last_code_rotation` is stamped; and two checks both
made within 60 seconds of the last rotation leave `current_code` as it was. -/
theorem session_qr_rotation_gate (s : Session) (now now1 now2 : Int)
    (fresh f1 f2 : String) (hfresh : fresh ≠ s.current_code) :
    (now - s.last_code_rotation < 60 →
      maybe_rotate s now fresh = (s, s.current_code)) ∧
    (60 ≤ now - s.last_code_rotation →
      maybe_rotate s now fresh =
        ({ s with current_code := fresh, last_code_rotation := now }, fresh) ∧
      (maybe_rotate s now fresh).2 ≠ s.current_code) ∧
    (now1 - s.last_code_rotation < 60 → now2 - s.last_code_rotation < 60 →
      ((maybe_rotate (maybe_rotate s now1 f1).1 now2 f2).1).current_code =
        s.current_code) := by
  refine ⟨fun h => ?_, fun h => ?_, fun h1 h2 => ?_⟩
  · simp only [maybe_rotate]
    rw [if_neg (by omega)]
  · simp only [maybe_rotate]
    rw [if_pos h]
    exact ⟨rfl, hfresh⟩
  · have e1 : (maybe_rotate s now1 f1).1 = s := by
      simp only [maybe_rotate]
      rw [if_neg (by omega)]
    rw [e1]
    simp only [maybe_rotate]
    rw [if_neg (by omega)]

/-- Witness for C2 on `sampleSession` (last rotation at 0) with checks at
10, 20 and 70 seconds. -/
theorem session_qr_rotation_gate_witness :
    (70 - sampleSession.last_code_rotation < 60 →
      maybe_rotate sampleSession 70 "R" = (sampleSession, sampleSession.current_code)) ∧
    (60 ≤ 70 - sampleSession.last_code_rotation →
      maybe_rotate sampleSession 70 "R" =
        ({ sampleSession with current_code := "R", last_code_rotation := 70 }, "R") ∧
      (maybe_rotate sampleSession 70 "R").2 ≠ sampleSession.current_code) ∧
    (10 - sampleSession.last_code_rotation < 60 →
      20 - sampleSession.last_code_rotation < 60 →
      ((maybe_rotate (maybe_rotate sampleSession 10 "A").1 20 "B").1).current_code =
        sampleSession.current_code) :=
  session_qr_rotation_gate sampleSession 70 10 20 "R" "A" "B" (by decide)

/-- C3: a submission to a session found by its current code but past its
expiry always yields the expired outcome (HTTP 410) with the store
unchanged, for every pair of form fields — the expiry check precedes all
validation and no row is ever inserted. -/
theorem attend_expired_no_insert (db : DB) (c sid sname : String) (now : Int)
    (s : Session) (hfind : find_by_current_code db c = some s)
    (hexp : s.expires_at < now) :
    attend db c sid sname now = (Outcome.expired, db) := by
  have hb : is_expired s now = true := by
    simp only [is_expired, decide_eq_true_eq]
    exact hexp
  simp only [attend, hfind, hb, if_true]

/-- Witness for C3: an empty-field submission at time 1000 to
`sampleSession` (expiring at 600) via its current code. -/
theorem attend_expired_no_insert_witness :
    attend sampleDB "Q" "" "" 1000 = (Outcome.expired, sampleDB) :=
  attend_expired_no_insert sampleDB "Q" "" "" 1000 sampleSession rfl (by decide)

/-- Inserting an attendance row grows the table by exactly one row. -/
theorem length_insert_attendance (db : DB) (i : Nat) (stud sname : String)
    (now : Int) :
    (insert_attendance db i stud sname now).attendances.length =
      db.attendances.length + 1 := by
  simp [insert_attendance]

/-- Inserting a row for a pair increments that pair's row count by one. -/
theorem count_pair_insert_same (db : DB) (i : Nat) (stud sname : String)
    (now : Int) :
    count_pair (insert_attendance db i stud sname now) i stud =
      count_pair db i stud + 1 := by
  simp [count_pair, insert_attendance, List.filter_append]

/-- After inserting a row for a pair, the duplicate check finds it. -/
theorem existing_record_insert_isSome (db : DB) (i : Nat) (stud sname : String)
    (now : Int) :
    (existing_record (insert_attendance db i stud sname now) i stud).isSome = true := by
  rw [existing_record, List.find?_isSome]
  refine ⟨{ id := db.next_attendance_id, session_id := i, student_id := stud,
            student_name := sname, marked_at := now }, ?_, by simp⟩
  simp [insert_attendance]

/-- C5: for a session found by its current code and not yet expired, a
submission whose `student_id` strips to empty is rejected with the
student-ID validation message and inserts nothing; likewise a non-empty
`student_id` with a `student_name` that strips to empty is rejected with
the name validation message and inserts nothing. -/
theorem attend_validation_no_insert (db : DB) (c sid sname : String)
    (now : Int) (s : Session)
    (hfind : find_by_current_code db c = some s)
    (hexp : ¬ s.expires_at < now) :
    (strip sid = "" →
      attend db c sid sname now =
        (Outcome.validationError "Please enter your student ID.", db)) ∧
    (strip sid ≠ "" → strip sname = "" →
      attend db c sid sname now =
        (Outcome.validationError "Please enter your name.", db)) := by
  have hb : is_expired s now = false := by
    simp only [is_expired, decide_eq_false_iff_not]
    exact hexp
  constructor
  · intro h
    simp [attend, hfind, hb, h]
  · intro h1 h2
    simp [attend, hfind, hb, h1, h2]

/-- Witness for C5: a whitespace-only student ID submitted to the
unexpired `sampleSession` at time 10. -/
theorem attend_validation_no_insert_witness :
    (strip "   " = "" →
      attend sampleDB "Q" "   " "Bob" 10 =
        (Outcome.validationError "Please enter your student ID.", sampleDB)) ∧
    (strip "   " ≠ "" → strip "Bob" = "" →
      attend sampleDB "Q" "   " "Bob" 10 =
        (Outcome.validationError "Please enter your name.", sampleDB)) :=
  attend_validation_no_insert sampleDB "Q" "   " "Bob" 10 sampleSession rfl (by decide)

/-- C10: the `attend` route resolves a session only through
`current_code`: for a session whose rotating code has moved on from its
permanent code, a request under any code no session currently holds — in
particular the permanent code, or a superseded rotating code — yields 404
with the store unchanged, even though the session is unexpired. -/
theorem attend_stale_code_notFound (db : DB) (c sid sname : String)
    (now : Int) (s : Session)
    (_hs : s ∈ db.sessions)
    (_hdiff : s.current_code ≠ s.code)
    (hnc : ∀ t ∈ db.sessions, t.current_code ≠ c)
    (_hexp : is_expired s now = false) :
    attend db c sid sname now = (Outcome.notFound, db) := by
  have hfind : find_by_current_code db c = none := by
    rw [find_by_current_code, List.find?_eq_none]
    intro t ht
    simpa using hnc t ht
  simp [attend, hfind]

/-- Witness for C10: `sampleSession` rotated to "Q", so its permanent code
"P" is refused by the attendance endpoint at time 10 though unexpired. -/
theorem attend_stale_code_notFound_witness :
    attend sampleDB "P" "s1" "Alice" 10 = (Outcome.notFound, sampleDB) :=
  attend_stale_code_notFound sampleDB "P" "s1" "Alice" 10 sampleSession
    (by decide) (by decide) (by decide) (by decide)

/-- C1: with the session resolved by its current code and unexpired, and
both stripped fields non-empty, a first submission for a pair with no
stored row returns `recorded` and inserts exactly one row for the pair,
and a second submission of the same pair returns `alreadyRecorded`,
leaves the store unchanged, and the pair's row count stays exactly one. -/
theorem attend_record_then_duplicate (db : DB) (c sid sname sname2 : String)
    (now1 now2 : Int) (s : Session)
    (hfind : find_by_current_code db c = some s)
    (hexp1 : ¬ s.expires_at < now1) (hexp2 : ¬ s.expires_at < now2)
    (hsid : strip sid ≠ "") (hname : strip sname ≠ "") (hname2 : strip sname2 ≠ "")
    (hfresh : count_pair db s.id (strip sid) = 0) :
    (attend db c sid sname now1).1 = Outcome.recorded ∧
    (attend db c sid sname now1).2.attendances.length = db.attendances.length + 1 ∧
    count_pair (attend db c sid sname now1).2 s.id (strip sid) = 1 ∧
    attend (attend db c sid sname now1).2 c sid sname2 now2 =
      (Outcome.alreadyRecorded, (attend db c sid sname now1).2) ∧
    count_pair (attend (attend db c sid sname now1).2 c sid sname2 now2).2
      s.id (strip sid) = 1 := by
  have hb1 : is_expired s now1 = false := by
    simp only [is_expired, decide_eq_false_iff_not]
    exact hexp1
  have hb2 : is_expired s now2 = false := by
    simp only [is_expired, decide_eq_false_iff_not]
    exact hexp2
  have hfresh' : (db.attendances.filter
      (fun a => a.session_id == s.id && a.student_id == strip sid)).length = 0 := hfresh
  have hfil : db.attendances.filter
      (fun a => a.session_id == s.id && a.student_id == strip sid) = [] :=
    List.length_eq_zero.mp hfresh'
  have hnone : existing_record db s.id (strip sid) = none := by
    rw [existing_record, List.find?_eq_none]
    intro a ha hpa
    have hmem : a ∈ db.attendances.filter
        (fun a => a.session_id == s.id && a.student_id == strip sid) :=
      List.mem_filter.mpr ⟨ha, hpa⟩
    rw [hfil] at hmem
    cases hmem
  have e1 : attend db c sid sname now1 =
      (Outcome.recorded, insert_attendance db s.id (strip sid) (strip sname) now1) := by
    simp [attend, hfind, hb1, hsid, hname, hnone]
  have hfind2 : find_by_current_code
      (insert_attendance db s.id (strip sid) (strip sname) now1) c = some s := by
    rw [find_by_current_code_insert]
    exact hfind
  have hex2 : (existing_record
      (insert_attendance db s.id (strip sid) (strip sname) now1) s.id
      (strip sid)).isSome = true :=
    existing_record_insert_isSome db s.id (strip sid) (strip sname) now1
  have e2 : attend (insert_attendance db s.id (strip sid) (strip sname) now1)
      c sid sname2 now2 =
      (Outcome.alreadyRecorded,
        insert_attendance db s.id (strip sid) (strip sname) now1) := by
    simp [attend, hfind2, hb2, hsid, hname2, hex2]
  have hcount : count_pair (insert_attendance db s.id (strip sid) (strip sname) now1)
      s.id (strip sid) = 1 :=
    (count_pair_insert_same db s.id (strip sid) (strip sname) now1).trans
      (by rw [hfresh])
  rw [e1]
  refine ⟨rfl, length_insert_attendance db s.id (strip sid) (strip sname) now1,
    hcount, e2, ?_⟩
  show count_pair (attend (insert_attendance db s.id (strip sid) (strip sname) now1)
      c sid sname2 now2).2 s.id (strip sid) = 1
  rw [e2]
  exact hcount

/-- Witness for C1: student " s1 " (strips to "s1") submits twice to the
unexpired `sampleSession` via its current code "Q". -/
theorem attend_record_then_duplicate_witness :
    (attend sampleDB "Q" " s1 " "Alice" 10).1 = Outcome.recorded ∧
    (attend sampleDB "Q" " s1 " "Alice" 10).2.attendances.length =
      sampleDB.attendances.length + 1 ∧
    count_pair (attend sampleDB "Q" " s1 " "Alice" 10).2
      sampleSession.id (strip " s1 ") = 1 ∧
    attend (attend sampleDB "Q" " s1 " "Alice" 10).2 "Q" " s1 " "Bob" 20 =
      (Outcome.alreadyRecorded, (attend sampleDB "Q" " s1 " "Alice" 10).2) ∧
    count_pair (attend (attend sampleDB "Q" " s1 " "Alice" 10).2
      "Q" " s1 " "Bob" 20).2 sampleSession.id (strip " s1 ") = 1 :=
  attend_record_then_duplicate sampleDB "Q" " s1 " "Alice" "Bob" 10 20 sampleSession
    rfl (by decide) (by decide) (by decide) (by decide) (by decide) rfl

/-- C6: whatever session a roster request resolves, the records it returns
are exactly that session's attendance rows, sorted by `marked_at`
ascending, and the JSON endpoint serialises the same ordered records. -/
theorem roster_sorted_by_marked_at (db : DB) (c : String) (s : Session)
    (recs : List Attendance)
    (h : view_attendance db c = some (s, recs)) :
    recs.Perm (db.attendances.filter (fun a => a.session_id == s.id)) ∧
    List.Sorted rosterLE recs ∧
    attendance_json db c =
      some (s.code, recs.map (fun r => (r.student_id, r.student_name, r.marked_at))) := by
  obtain ⟨t, hget, heq⟩ := Option.map_eq_some'.mp h
  have h2 : t = s ∧ list_attendance db t.id = recs := by
    simpa [Prod.ext_iff] using heq
  obtain ⟨rfl, rfl⟩ := h2
  refine ⟨List.perm_insertionSort _ _, List.sorted_insertionSort _ _, ?_⟩
  rw [attendance_json, hget]
  rfl

/-- Witness for C6 on `sampleDB2`, whose rows were inserted out of order
with a tie at `marked_at = 30`, requested by the permanent code "P". -/
theorem roster_sorted_by_marked_at_witness :
    (list_attendance sampleDB2 sampleSession.id).Perm
      (sampleDB2.attendances.filter (fun a => a.session_id == sampleSession.id)) ∧
    List.Sorted rosterLE (list_attendance sampleDB2 sampleSession.id) ∧
    attendance_json sampleDB2 "P" =
      some (sampleSession.code, (list_attendance sampleDB2 sampleSession.id).map
        (fun r => (r.student_id, r.student_name, r.marked_at))) :=
  roster_sorted_by_marked_at sampleDB2 "P" sampleSession
    (list_attendance sampleDB2 sampleSession.id) rfl

/-- C7: when a session is the unique holder of its permanent code, its
current code collides with nobody's permanent code, and it is the unique
holder of its current code, the roster lookup resolves both of its codes
to it (permanent first, rotating as fallback); and the lookup returns
`none` exactly when the requested code matches neither column of any
session. -/
theorem get_session_by_any_code_resolves (db : DB) (s : Session) (c : String)
    (hs : s ∈ db.sessions)
    (hcode : ∀ t ∈ db.sessions, t.code = s.code → t = s)
    (hnp : ∀ t ∈ db.sessions, t.code ≠ s.current_code)
    (hcur : ∀ t ∈ db.sessions, t.current_code = s.current_code → t = s) :
    get_session_by_any_code db s.code = some s ∧
    get_session_by_any_code db s.current_code = some s ∧
    (get_session_by_any_code db c = none ↔
      ∀ t ∈ db.sessions, t.code ≠ c ∧ t.current_code ≠ c) := by
  have h1 : find_by_code db s.code = some s := by
    apply find?_eq_some_unique _ _ s hs (by simp)
    intro y hy hpy
    exact hcode y hy (by simpa using hpy)
  have h2 : find_by_code db s.current_code = none := by
    rw [find_by_code, List.find?_eq_none]
    intro t ht
    simpa using hnp t ht
  have h3 : find_by_current_code db s.current_code = some s := by
    apply find?_eq_some_unique _ _ s hs (by simp)
    intro y hy hpy
    exact hcur y hy (by simpa using hpy)
  refine ⟨?_, ?_, ?_⟩
  · rw [get_session_by_any_code, h1]
  · rw [get_session_by_any_code, h2, h3]
  · constructor
    · intro hnone t ht
      rw [get_session_by_any_code] at hnone
      cases hfc : find_by_code db c with
      | some u =>
        rw [hfc] at hnone
        simp at hnone
      | none =>
        rw [hfc] at hnone
        have ha := List.find?_eq_none.mp hfc t ht
        have hb := List.find?_eq_none.mp hnone t ht
        exact ⟨by simpa using ha, by simpa using hb⟩
    · intro hall
      rw [get_session_by_any_code]
      have hfc : find_by_code db c = none := by
        rw [find_by_code, List.find?_eq_none]
        intro t ht
        simpa using (hall t ht).1
      rw [hfc, find_by_current_code, List.find?_eq_none]
      intro t ht
      simpa using (hall t ht).2

/-- Witness for C7 on `sampleDB`: permanent code "P" and rotating code "Q"
both resolve to `sampleSession`; "Z" matches neither column. -/
theorem get_session_by_any_code_resolves_witness :
    get_session_by_any_code sampleDB sampleSession.code = some sampleSession ∧
    get_session_by_any_code sampleDB sampleSession.current_code = some sampleSession ∧
    (get_session_by_any_code sampleDB "Z" = none ↔
      ∀ t ∈ sampleDB.sessions, t.code ≠ "Z" ∧ t.current_code ≠ "Z") :=
  get_session_by_any_code_resolves sampleDB sampleSession "Z"
    (by decide) (by decide) (by decide) (by decide)

end AttendanceApp
